import Mathlib

/-!
Shallow embedding of the Reddit API access core of the `likeminded`
repository (crate `reddit-client`), together with proofs about the
properties its specification states.

Modelling conventions:
* Rust `f64` values are modelled as rationals (`ℚ`); the numeric casts
  `as u64` / `as i64` / `as u32` are modelled as truncation toward zero
  with saturation at the integer type's bounds, which is the semantics
  of Rust's float-to-int `as` casts.
* `std::time::Instant` / `SystemTime` are modelled as natural-number
  timestamps (seconds since an arbitrary origin).
* Randomness (`fastrand::u64(0..=n)`) is modelled by an explicit
  parameter carrying the drawn value, constrained to the drawn range.
* Network I/O is modelled by explicit parameters describing the
  transport outcome of each attempt.
-/

namespace Likeminded

/-! ## Error taxonomy (likeminded-core/src/error.rs) -/

/-- `RedditApiError` from `likeminded-core/src/error.rs`. -/
inductive RedditApiError where
  | AuthenticationFailed (reason : String)
  | RateLimitExceeded (retry_after : Nat)
  | Forbidden (resource : String)
  | SubredditNotFound (subreddit : String)
  | PostNotFound (post_id : String)
  | InvalidToken
  | EndpointUnavailable (endpoint : String)
  | RequestTimeout
  | InvalidResponse (details : String)
  | ServerError (status_code : Nat)
  deriving DecidableEq, Repr

/-- `CoreError` from `likeminded-core/src/error.rs`.  Variants whose payloads
are irrelevant to the claims below (`Llm`, `Embedding`, `Config`, `Io`,
`Serialization`) are carried without payloads; the `Network` payload keeps
only the `is_timeout()` / `is_connect()` observations that the code makes
on a `reqwest::Error`. -/
inductive CoreError where
  | RedditApi (e : RedditApiError)
  | Database
  | Llm
  | Embedding
  | Config
  | Io
  | Serialization
  | Network (is_timeout : Bool) (is_connect : Bool)
  | InvalidInput (message : String)
  | Timeout (seconds : Nat)
  | NotFound (resource : String)
  | PermissionDenied (operation : String)
  | Internal (message : String)
  | RateLimited (message : String) (retry_after : Option Nat)
  | RequestFailed (message : String) (status_code : Option Nat)
  deriving DecidableEq, Repr

/-- The `thiserror` display string of a `RedditApiError`
(the `#[error("...")]` attributes in `likeminded-core/src/error.rs`). -/
def RedditApiError.display : RedditApiError → String
  | .AuthenticationFailed reason => "Authentication failed: " ++ reason
  | .RateLimitExceeded retry_after =>
      "Rate limit exceeded. Retry after " ++ toString retry_after ++ " seconds"
  | .Forbidden resource => "Forbidden access to resource: " ++ resource
  | .SubredditNotFound subreddit => "Subreddit not found: " ++ subreddit
  | .PostNotFound post_id => "Post not found: " ++ post_id
  | .InvalidToken => "Invalid OAuth token"
  | .EndpointUnavailable endpoint => "API endpoint unavailable: " ++ endpoint
  | .RequestTimeout => "Request timeout"
  | .InvalidResponse details => "Invalid API response: " ++ details
  | .ServerError status_code => "Server error: " ++ toString status_code

/-- The `thiserror` display string of a `CoreError`, for the variants the
claims exercise (the `error.to_string()` calls of the retry executor). -/
def CoreError.display : CoreError → String
  | .RedditApi e => "Reddit API error: " ++ e.display
  | .Database => "Database error"
  | .Llm => "LLM error"
  | .Embedding => "Embedding error"
  | .Config => "Configuration error"
  | .Io => "IO error"
  | .Serialization => "Serialization error"
  | .Network _ _ => "Network error"
  | .InvalidInput message => "Invalid input: " ++ message
  | .Timeout seconds => "Operation timeout after " ++ toString seconds ++ " seconds"
  | .NotFound resource => "Resource not found: " ++ resource
  | .PermissionDenied operation => "Permission denied: " ++ operation
  | .Internal message => "Internal error: " ++ message
  | .RateLimited message _ => "Rate limited: " ++ message
  | .RequestFailed message _ => "Request failed: " ++ message

/-- Decidable equality for `Except` results. -/
instance {e a : Type} [DecidableEq e] [DecidableEq a] : DecidableEq (Except e a)
  | .ok x, .ok y =>
    if h : x = y then .isTrue (by rw [h]) else .isFalse (by simp [h])
  | .ok _, .error _ => .isFalse (by simp)
  | .error _, .ok _ => .isFalse (by simp)
  | .error x, .error y =>
    if h : x = y then .isTrue (by rw [h]) else .isFalse (by simp [h])

/-! ## Numeric cast model -/

/-- Largest `u64` value. -/
def u64Max : Nat := 2 ^ 64 - 1

/-- Largest `i64` value. -/
def i64Max : Int := 2 ^ 63 - 1

/-- Smallest `i64` value. -/
def i64Min : Int := -(2 ^ 63)

/-- Truncation of a rational toward zero (what Rust's float-to-int `as`
does before saturating). -/
def ratTrunc (q : ℚ) : Int := Int.tdiv q.num q.den

/-- Rust `f64 as u64`: truncate toward zero, saturate into `[0, u64::MAX]`. -/
def ratAsU64 (q : ℚ) : Nat := min (ratTrunc q).toNat u64Max

/-- Rust `f64 as i64`: truncate toward zero, saturate into
`[i64::MIN, i64::MAX]`. -/
def ratAsI64 (q : ℚ) : Int := max i64Min (min i64Max (ratTrunc q))

/-! ## Reddit wire model and domain model (api.rs, likeminded-core/src/types.rs) -/

/-- `RedditPostData` from `reddit-client/src/api.rs` (the wire format of a
post; `f64` fields become `ℚ`). -/
structure RedditPostData where
  id : String
  title : String
  selftext : String
  author : String
  subreddit : String
  subreddit_name_prefixed : String
  url : String
  permalink : String
  created_utc : ℚ
  score : Int
  num_comments : Nat
  over_18 : Bool
  stickied : Bool
  locked : Bool
  ups : Int
  downs : Int
  upvote_ratio : Option ℚ
  thumbnail : Option String
  is_self : Bool
  domain : String
  deriving Repr

/-- `RedditPost` from `likeminded-core/src/types.rs` (the domain model). -/
structure RedditPost where
  id : String
  title : String
  content : Option String
  subreddit : String
  url : String
  permalink : String
  author : String
  created_utc : Int
  score : Int
  num_comments : Nat
  upvote_ratio : Option ℚ
  over_18 : Bool
  stickied : Bool
  locked : Bool
  is_self : Bool
  domain : String
  thumbnail : Option String
  deriving Repr

/-- `impl From<RedditPostData> for RedditPost` from `reddit-client/src/api.rs`
(lines 709-735). -/
def RedditPostData.toRedditPost (p : RedditPostData) : RedditPost :=
  { id := p.id
    title := p.title
    content := if p.is_self ∧ p.selftext ≠ "" then some p.selftext else none
    subreddit := p.subreddit
    url := p.url
    permalink := "https://reddit.com" ++ p.permalink
    author := p.author
    created_utc := ratAsI64 p.created_utc
    score := p.score
    num_comments := p.num_comments
    upvote_ratio := p.upvote_ratio
    over_18 := p.over_18
    stickied := p.stickied
    locked := p.locked
    is_self := p.is_self
    domain := p.domain
    thumbnail := p.thumbnail }

/-! ## Retry configuration and backoff (retry.rs) -/

/-- `RetryConfig` from `reddit-client/src/retry.rs`.  The two `f64` fields
are rationals; `0.2` denotes the exact value `1/5` (the value the source
text writes). -/
structure RetryConfig where
  max_attempts : Nat
  base_delay_ms : Nat
  max_delay_ms : Nat
  backoff_multiplier : ℚ
  jitter_factor : ℚ
  failure_threshold : Nat
  recovery_timeout_s : Nat
  deriving Repr

/-- `RetryConfig::default()`. -/
def RetryConfig.default : RetryConfig :=
  { max_attempts := 3
    base_delay_ms := 1000
    max_delay_ms := 30000
    backoff_multiplier := 2
    jitter_factor := 1/10
    failure_threshold := 5
    recovery_timeout_s := 60 }

/-- `RetryConfig::reddit()`. -/
def RetryConfig.reddit : RetryConfig :=
  { max_attempts := 3
    base_delay_ms := 2000
    max_delay_ms := 60000
    backoff_multiplier := 2
    jitter_factor := 1/5
    failure_threshold := 3
    recovery_timeout_s := 120 }

/-- The `exponential_delay` computed by `calculate_delay`
(`retry.rs` lines 203-209): the base delay for attempt 0, otherwise
`(base_delay_ms as f64 * multiplier.powi(attempt)) as u64` clamped by
`max_delay_ms`. -/
def exponentialDelayMs (cfg : RetryConfig) (attempt : Nat) : Nat :=
  if attempt = 0 then cfg.base_delay_ms
  else min (ratAsU64 ((cfg.base_delay_ms : ℚ) * cfg.backoff_multiplier ^ attempt))
      cfg.max_delay_ms

/-- The `jitter_range` of `calculate_delay` (`retry.rs` line 212):
`(exponential_delay.as_millis() as f64 * jitter_factor) as u64`. -/
def jitterRangeMs (cfg : RetryConfig) (attempt : Nat) : Nat :=
  ratAsU64 ((exponentialDelayMs cfg attempt : ℚ) * cfg.jitter_factor)

/-- `calculate_delay` from `reddit-client/src/retry.rs` (lines 198-218).
`jitterDraw` is the value produced by `fastrand::u64(0..=jitter_range)`;
callers constrain it to that range. -/
def calculate_delay (cfg : RetryConfig) (attempt : Nat) (jitterDraw : Nat) : Nat :=
  min (exponentialDelayMs cfg attempt + jitterDraw) cfg.max_delay_ms

/-! ## Circuit breaker (retry.rs lines 55-148) -/

/-- `CircuitBreakerState` from `retry.rs`. -/
inductive CircuitBreakerState where
  | Closed
  | Open
  | HalfOpen
  deriving DecidableEq, Repr

/-- `CircuitBreaker` from `retry.rs`; `Instant`s are natural-number
timestamps in seconds. -/
structure CircuitBreaker where
  state : CircuitBreakerState
  failure_count : Nat
  last_failure_time : Option Nat
  config : RetryConfig
  deriving Repr

/-- `CircuitBreaker::new`. -/
def CircuitBreaker.new (config : RetryConfig) : CircuitBreaker :=
  { state := .Closed, failure_count := 0, last_failure_time := none, config := config }

/-- `CircuitBreaker::allow_request` (`retry.rs` lines 83-102), at current
time `now`: returns the decision and the (possibly transitioned) breaker. -/
def CircuitBreaker.allow_request (b : CircuitBreaker) (now : Nat) : Bool × CircuitBreaker :=
  match b.state with
  | .Closed => (true, b)
  | .Open =>
    match b.last_failure_time with
    | some t =>
      if b.config.recovery_timeout_s ≤ now - t then
        (true, { b with state := .HalfOpen })
      else
        (false, b)
    | none => (false, b)
  | .HalfOpen => (true, b)

/-- `CircuitBreaker::record_success` (`retry.rs` lines 105-118). -/
def CircuitBreaker.record_success (b : CircuitBreaker) : CircuitBreaker :=
  match b.state with
  | .HalfOpen => { b with state := .Closed, failure_count := 0, last_failure_time := none }
  | _ => { b with failure_count := 0 }

/-- `CircuitBreaker::record_failure` (`retry.rs` lines 121-143), at current
time `now`. -/
def CircuitBreaker.record_failure (b : CircuitBreaker) (now : Nat) : CircuitBreaker :=
  let b' := { b with failure_count := b.failure_count + 1, last_failure_time := some now }
  match b.state with
  | .Closed =>
    if b.config.failure_threshold ≤ b'.failure_count then
      { b' with state := .Open }
    else b'
  | .HalfOpen => { b' with state := .Open }
  | .Open => b'

/-! ## Retry strategy and executor (retry.rs lines 150-405) -/

/-- `RetryStrategy` from `retry.rs`. -/
inductive RetryStrategy where
  | Retry
  | RetryWithDelay (d : Nat)
  | NoRetry
  deriving DecidableEq, Repr

/-- `get_retry_strategy` from `retry.rs` (lines 162-195). -/
def get_retry_strategy : CoreError → RetryStrategy
  | .RedditApi (.RateLimitExceeded retry_after) => .RetryWithDelay retry_after
  | .RedditApi (.ServerError _) => .Retry
  | .RedditApi .RequestTimeout => .Retry
  | .RedditApi (.InvalidResponse _) => .Retry
  | .RedditApi (.AuthenticationFailed _) => .NoRetry
  | .RedditApi .InvalidToken => .NoRetry
  | .RedditApi (.Forbidden _) => .NoRetry
  | .RedditApi (.SubredditNotFound _) => .NoRetry
  | .RedditApi (.PostNotFound _) => .NoRetry
  | .RedditApi (.EndpointUnavailable _) => .Retry
  | .Network is_timeout is_connect =>
      if is_timeout || is_connect then .Retry else .NoRetry
  | _ => .NoRetry

/-- The attempt loop of `RetryExecutor::execute` (`retry.rs` lines 294-383),
structured on the number of remaining iterations (`remaining` plus
`attempt` equals `max_attempts` at every call): `op n` is the outcome of
the `n`-th invocation of the operation, `0 < remaining` (after this
iteration) is the loop's `should_retry = attempt + 1 < max_attempts`.
Returns either the final `last_error` display string (overall failure) or
the success value, paired with the number of times the operation was
invoked.  Backoff sleeps do not affect results and are not modelled. -/
def runAttemptsAux {T : Type} (cfg : RetryConfig) (op : Nat → Except CoreError T) :
    Nat → Nat → Option String → (Option String ⊕ T) × Nat
  | 0, _, lastError => (.inl lastError, 0)
  | remaining + 1, attempt, _ =>
    match op attempt with
    | .ok t => (.inr t, 1)
    | .error e =>
      match get_retry_strategy e with
      | .NoRetry => (.inl (some e.display), 1)
      | .Retry =>
        if 0 < remaining then
          let r := runAttemptsAux cfg op remaining (attempt + 1) (some e.display)
          (r.1, r.2 + 1)
        else (.inl (some e.display), 1)
      | .RetryWithDelay _ =>
        if 0 < remaining then
          let r := runAttemptsAux cfg op remaining (attempt + 1) (some e.display)
          (r.1, r.2 + 1)
        else (.inl (some e.display), 1)

/-- The full attempt loop `for attempt in 0..max_attempts`. -/
def runAttempts {T : Type} (cfg : RetryConfig) (op : Nat → Except CoreError T) :
    (Option String ⊕ T) × Nat :=
  runAttemptsAux cfg op cfg.max_attempts 0 none

/-- `RetryExecutor::execute` (`retry.rs` lines 263-405): gate on the circuit
breaker, run the attempt loop, record the overall outcome on the breaker.
Returns the caller-visible result, the updated breaker, and how many times
the operation was invoked.  Retry metrics bookkeeping does not influence
results and is not modelled; `now` stands for the clock during this call
(attempt sleeps are not modelled). -/
def RetryExecutor.execute {T : Type} (cfg : RetryConfig) (breaker : CircuitBreaker)
    (now : Nat) (op : Nat → Except CoreError T) :
    Except CoreError T × CircuitBreaker × Nat :=
  let gate := breaker.allow_request now
  if gate.1 then
    match runAttempts cfg op with
    | (.inr t, n) => (.ok t, gate.2.record_success, n)
    | (.inl lastError, n) =>
      (.error (.Internal (lastError.getD "Unknown error during retry execution")),
        gate.2.record_failure now, n)
  else
    (.error (.Internal "Circuit breaker is open"), gate.2, 0)

/-! ## Priority request queue (request_queue.rs) -/

/-- `PriorityRequest` from `reddit-client/src/request_queue.rs` (lines 42-47);
`scheduled_for` is a `SystemTime` modelled as seconds since the epoch. -/
structure PriorityRequest where
  request_id : String
  priority : Int
  scheduled_for : Nat
  deriving DecidableEq, Repr

/-- `impl Ord for PriorityRequest` (`request_queue.rs` lines 49-57), as
written in the source:
`other.priority.cmp(&self.priority).then_with(|| self.scheduled_for.cmp(&other.scheduled_for))`. -/
def PriorityRequest.cmp (self other : PriorityRequest) : Ordering :=
  (compare other.priority self.priority).then
    (compare self.scheduled_for other.scheduled_for)

/-- `a` is greater than or equal to `b` under the `Ord` implementation
above (so a `BinaryHeap` maximum). -/
def PriorityRequest.geq (a b : PriorityRequest) : Bool :=
  match PriorityRequest.cmp a b with
  | .lt => false
  | _ => true

/-- `BinaryHeap::pop` on the queue's heap: Rust's `BinaryHeap` is a
max-heap, so `pop` removes a greatest element under the `Ord`
implementation.  The heap is modelled as a list; ties (elements comparing
`Equal`) are broken by keeping the earlier listed element, a deterministic
refinement of `BinaryHeap`'s unspecified tie order. -/
def heapPopMax : List PriorityRequest → Option PriorityRequest
  | [] => none
  | r :: rest =>
    match heapPopMax rest with
    | none => some r
    | some m => if PriorityRequest.geq r m then some r else some m

/-- The dequeue step of `RequestQueue::process_next_request`
(`request_queue.rs` lines 185-217): pop the heap top; a request scheduled
for the future is pushed back (yielding no dequeued request this tick),
otherwise it is the request executed next. -/
def processNextDequeues (queue : List PriorityRequest) (now : Nat) :
    Option PriorityRequest :=
  match heapPopMax queue with
  | none => none
  | some r => if now < r.scheduled_for then none else some r

/-- `QueuedRequest` from `request_queue.rs` (lines 13-30); `payload` and
`headers` are always `None` in `enqueue_request` and are dropped;
`timeout_duration` is in seconds. -/
structure QueuedRequest where
  request_id : String
  endpoint : String
  method : String
  priority : Int
  operation_type : Option String
  access_token : String
  query_params : Option (List (String × String))
  queued_at : Nat
  scheduled_for : Option Nat
  retry_count : Nat
  max_retries : Nat
  timeout_duration : Nat
  subreddit : Option String
  deriving DecidableEq, Repr

/-- `RequestResult` from `request_queue.rs` (lines 32-40);
`response_time` is dropped (wall-clock duration). -/
structure RequestResult where
  request_id : String
  success : Bool
  status_code : Option Nat
  error_message : Option String
  response_data : Option String
  deriving DecidableEq, Repr

/-- A row of the `request_queue` table, keeping the columns the claims
observe (`status`, `retry_count`, `scheduled_for`); timestamp columns
(`started_at`, ...) are not modelled. -/
structure QueueRow where
  request_id : String
  status : String
  retry_count : Nat
  scheduled_for : Nat
  deriving DecidableEq, Repr

/-- The in-memory and persistent state of a `RequestQueue`
(`request_queue.rs` lines 65-74): priority heap, `requests` map,
`result_senders` map (modelled as the set of ids holding a live sender),
the `request_queue` table, and the list of results actually sent to
callers' receivers (`delivered`). -/
structure QueueState where
  queue : List PriorityRequest
  requests : List (String × QueuedRequest)
  senders : List String
  db : List QueueRow
  delivered : List RequestResult
  max_queue_size : Nat
  deriving DecidableEq, Repr

/-- `RequestQueue::update_request_status` (`request_queue.rs` lines
456-481): only the statuses `executing`, `completed` and `failed` name a
timestamp column; every other status (including `cancelled`) takes the
`_ => return Ok(())` arm and issues no SQL. -/
def update_request_status (db : List QueueRow) (request_id status : String) :
    List QueueRow :=
  if status = "executing" ∨ status = "completed" ∨ status = "failed" then
    db.map fun row =>
      if row.request_id = request_id then { row with status := status } else row
  else db

/-- `RequestQueue::update_request_retry_info` (`request_queue.rs` lines
483-505). -/
def update_request_retry_info (db : List QueueRow) (request_id : String)
    (retry_count : Nat) (scheduled_for : Nat) : List QueueRow :=
  db.map fun row =>
    if row.request_id = request_id then
      { row with retry_count := retry_count, scheduled_for := scheduled_for }
    else row

/-- `RequestQueue::enqueue_request` (`request_queue.rs` lines 113-183):
reject when the heap is full, otherwise insert the row with status
`queued`, push the heap entry, and register the request and its result
sender.  `request_id` stands for the freshly generated UUID. -/
def enqueue_request (st : QueueState) (request_id endpoint method access_token : String)
    (priority : Int) (operation_type : Option String)
    (query_params : Option (List (String × String))) (subreddit : Option String)
    (timeout_duration : Option Nat) (now : Nat) :
    Except CoreError (String × QueueState) :=
  if st.max_queue_size ≤ st.queue.length then
    .error (.RateLimited "Request queue is full" (some 60))
  else
    let req : QueuedRequest :=
      { request_id := request_id
        endpoint := endpoint
        method := method
        priority := priority
        operation_type := operation_type
        access_token := access_token
        query_params := query_params
        queued_at := now
        scheduled_for := some now
        retry_count := 0
        max_retries := 3
        timeout_duration := timeout_duration.getD 30
        subreddit := subreddit }
    let row : QueueRow :=
      { request_id := request_id, status := "queued", retry_count := 0,
        scheduled_for := now }
    .ok (request_id,
      { st with
        queue := { request_id := request_id, priority := priority,
                   scheduled_for := now } :: st.queue
        requests := (request_id, req) :: st.requests
        senders := request_id :: st.senders
        db := st.db ++ [row] })

/-- `RequestQueue::complete_request` (`request_queue.rs` lines 319-358):
mark the row `completed` and drop the in-memory request and sender entries
(tracker recording does not affect queue state and is not modelled). -/
def complete_request (st : QueueState) (req : QueuedRequest) : QueueState :=
  { st with
    db := update_request_status st.db req.request_id "completed"
    requests := st.requests.filter fun p => p.1 ≠ req.request_id
    senders := st.senders.filter fun id => id ≠ req.request_id }

/-- `RequestQueue::handle_request_failure` (`request_queue.rs` lines
360-416): bump `retry_count`; within `max_retries`, re-push onto the heap
with `scheduled_for = now + 2^retry_count * 60` seconds and persist the
retry info; beyond it, mark the row `failed` and drop the in-memory
entries.  Returns the state and the re-scheduled request (if any). -/
def handle_request_failure (st : QueueState) (req : QueuedRequest) (now : Nat) :
    QueueState × QueuedRequest :=
  let req' := { req with retry_count := req.retry_count + 1 }
  if req'.retry_count ≤ req'.max_retries then
    let backoff_seconds := 2 ^ req'.retry_count * 60
    let retry_time := now + backoff_seconds
    let req'' := { req' with scheduled_for := some retry_time }
    ({ st with
        queue := { request_id := req.request_id, priority := req.priority,
                   scheduled_for := retry_time } :: st.queue
        requests := (req.request_id, req'') ::
          st.requests.filter fun p => p.1 ≠ req.request_id
        db := update_request_retry_info st.db req.request_id req''.retry_count
          retry_time },
      req'')
  else
    ({ st with
        db := update_request_status st.db req.request_id "failed"
        requests := st.requests.filter fun p => p.1 ≠ req.request_id
        senders := st.senders.filter fun id => id ≠ req.request_id },
      req')

/-- `RequestQueue::execute_request` (`request_queue.rs` lines 219-273):
mark the row `executing`, run the request (its outcome is the parameter
`outcome`, standing for `simulate_api_request`), branch on success, and
finally send the result to the waiting caller **if** its sender is still
registered at that point.  `delivered` collects the results actually sent. -/
def execute_request (st : QueueState) (req : QueuedRequest)
    (outcome : Except CoreError (Nat × String)) (now : Nat) : QueueState :=
  let st₁ := { st with db := update_request_status st.db req.request_id "executing" }
  let result : RequestResult :=
    match outcome with
    | .ok (status_code, response_data) =>
      { request_id := req.request_id
        success := decide (status_code < 400)
        status_code := some status_code
        error_message := none
        response_data := some response_data }
    | .error e =>
      { request_id := req.request_id
        success := false
        status_code := none
        error_message := some e.display
        response_data := none }
  let st₂ :=
    match outcome with
    | .ok (status_code, _) =>
      if status_code < 400 then complete_request st₁ req
      else (handle_request_failure st₁ req now).1
    | .error _ => (handle_request_failure st₁ req now).1
  if req.request_id ∈ st₂.senders then
    { st₂ with delivered := st₂.delivered ++ [result] }
  else st₂

/-- `RequestQueue::cancel_request` (`request_queue.rs` lines 539-565):
rebuild the heap without the id, drop the request and sender entries, and
report whether the id was found in the `requests` map; only then call
`update_request_status(id, "cancelled")`. -/
def cancel_request (st : QueueState) (request_id : String) : Bool × QueueState :=
  let found := (st.requests.find? fun p => p.1 = request_id).isSome
  let st' :=
    { st with
      queue := st.queue.filter fun r => r.request_id ≠ request_id
      requests := st.requests.filter fun p => p.1 ≠ request_id
      senders := st.senders.filter fun id => id ≠ request_id }
  if found then
    (true, { st' with db := update_request_status st'.db request_id "cancelled" })
  else
    (false, st')

/-! ## HTTP request pipeline and call tracking (api.rs, api_tracker.rs) -/

/-- An HTTP response as the code observes it: the status code and the
parsed `Retry-After` header (`some n` when the header is present and
parses as `u64`; absent/unparseable headers both lead to the default 60). -/
structure HttpResponse where
  status : Nat
  retry_after : Option Nat
  deriving DecidableEq, Repr

/-- The outcome of `reqwest`'s `send()`: a response, or a transport error
observed through `is_timeout()`. -/
inductive Transport where
  | response (r : HttpResponse)
  | failure (is_timeout : Bool) (is_connect : Bool)
  deriving DecidableEq, Repr

/-- A row of the `api_call_tracking` table as written by
`ApiTracker::record_api_call` (`api_tracker.rs` lines 157-228), keeping
the columns the claims observe.  `record_api_call` generates the row's
fresh `request_id` (a UUID, modelled as a supplied string). -/
structure ApiCallRow where
  endpoint : String
  method : String
  status_code : Option Nat
  rate_limited : Bool
  request_id : String
  deriving DecidableEq, Repr

/-- `RedditApiClient::make_request_internal` (`api.rs` lines 215-395):
classify the transport outcome, and — only on the paths that do *not*
return early — record the call in the tracker (when one is attached).
Returns the result together with the list of `api_call_tracking` rows
appended by this call; `fresh_id` stands for the UUID the tracker would
generate. -/
def make_request_internal (endpoint method : String) (tracker_attached : Bool)
    (fresh_id : String) (t : Transport) :
    Except CoreError HttpResponse × List ApiCallRow :=
  match t with
  | .failure is_timeout is_connect =>
    if is_timeout then (.error (.RedditApi .RequestTimeout), [])
    else (.error (.Network is_timeout is_connect), [])
  | .response r =>
    if 200 ≤ r.status ∧ r.status ≤ 299 then
      (.ok r,
        if tracker_attached then
          [{ endpoint := endpoint, method := method, status_code := some r.status,
             rate_limited := false, request_id := fresh_id }]
        else [])
    else if r.status = 429 then
      (.error (.RedditApi (.RateLimitExceeded (r.retry_after.getD 60))), [])
    else if r.status = 401 then
      (.error (.RedditApi .InvalidToken), [])
    else if r.status = 403 then
      (.error (.RedditApi (.Forbidden endpoint)), [])
    else if r.status = 404 then
      (.error (.RedditApi (.InvalidResponse "Resource not found")), [])
    else if 500 ≤ r.status ∧ r.status ≤ 599 then
      (.error (.RedditApi (.ServerError r.status)), [])
    else
      -- Unhandled non-2xx statuses (3xx, other 4xx) fall through: the
      -- response is returned as `Ok` and the call *is* recorded.
      (.ok r,
        if tracker_attached then
          [{ endpoint := endpoint, method := method, status_code := some r.status,
             rate_limited := false, request_id := fresh_id }]
        else [])

/-- `RedditApiClient::make_request_with_context` (`api.rs` lines 169-212):
run `make_request_internal` under the retry executor.  `transports n`
describes the transport outcome of the `n`-th attempt; `ids n` the UUID
supply.  Returns the caller-visible result, the updated breaker, and all
tracking rows appended across the attempts. -/
def make_request_with_context (cfg : RetryConfig) (breaker : CircuitBreaker)
    (now : Nat) (endpoint method : String) (tracker_attached : Bool)
    (ids : Nat → String) (transports : Nat → Transport) :
    Except CoreError HttpResponse × CircuitBreaker × List ApiCallRow :=
  let r := RetryExecutor.execute cfg breaker now
    (fun n => (make_request_internal endpoint method tracker_attached (ids n)
      (transports n)).1)
  let rows := (List.range r.2.2).flatMap
    (fun n => (make_request_internal endpoint method tracker_attached (ids n)
      (transports n)).2)
  (r.1, r.2.1, rows)

/-- `RedditApiClient::check_subreddit_access` (`api.rs` lines 569-605):
match on the result of the `/r/{name}/about` request. -/
def check_subreddit_access (cfg : RetryConfig) (breaker : CircuitBreaker)
    (now : Nat) (subreddit : String) (ids : Nat → String)
    (transports : Nat → Transport) : Except CoreError Bool × CircuitBreaker :=
  let endpoint := "/r/" ++ subreddit ++ "/about"
  let r := make_request_with_context cfg breaker now endpoint "GET" false ids
    transports
  match r.1 with
  | .ok _ => (.ok true, r.2.1)
  | .error (.RedditApi (.Forbidden _)) => (.ok false, r.2.1)
  | .error (.RedditApi (.SubredditNotFound _)) => (.ok false, r.2.1)
  | .error e => (.error e, r.2.1)

/-! ## OAuth2 callback handling (lib.rs lines 136-290) -/

/-- `RedditToken` from `reddit-client/src/lib.rs`. -/
structure RedditToken where
  access_token : String
  refresh_token : Option String
  expires_at : Nat
  scope : List String
  deriving DecidableEq, Repr

/-- `AuthState` from `reddit-client/src/lib.rs`. -/
inductive AuthState where
  | NotAuthenticated
  | PendingAuthorization (csrf_token : String) (pkce_verifier : String)
  | Authenticated (token : RedditToken)
  | TokenExpired (token : RedditToken)
  deriving DecidableEq, Repr

/-- Query-parameter lookup on the parsed callback URL.  The code collects
`url.query_pairs()` into a `HashMap`, so a repeated key keeps the last
occurrence. -/
def queryGet (params : List (String × String)) (key : String) : Option String :=
  (params.reverse.find? fun p => p.1 = key).map fun p => p.2

/-- `code.trim_end_matches("#_")` on the reversed character list:
repeatedly strip a trailing `#_`. -/
def stripTrailingHashUnderscoreRev : List Char → List Char
  | '_' :: '#' :: rest => stripTrailingHashUnderscoreRev rest
  | l => l

/-- `auth_code.trim_end_matches("#_")` (`lib.rs` line 190). -/
def trimAuthCode (s : String) : String :=
  String.mk (stripTrailingHashUnderscoreRev s.data.reverse).reverse

/-- `RedditClient::handle_callback` (`lib.rs` lines 136-290).  The callback
URL is given already parsed: `none` when `Url::parse` fails (the error
detail string of the parser is not modelled), `some qs` with its query
pairs otherwise.  `exchange code pkce` is the outcome of the token
endpoint round-trip (`Except` error = the display of the `oauth2` error).
Returns the result and the auth state after the call. -/
def handle_callback (st : AuthState)
    (parsed : Option (List (String × String))) (expected_csrf : String)
    (exchange : String → String → Except String RedditToken) :
    Except CoreError RedditToken × AuthState :=
  match parsed with
  | none => (.error (.RedditApi (.InvalidResponse "Invalid callback URL")), st)
  | some qs =>
    match queryGet qs "error" with
    | some err => (.error (.RedditApi (.AuthenticationFailed err)), st)
    | none =>
      match queryGet qs "state" with
      | none =>
        (.error (.RedditApi (.InvalidResponse "Missing state parameter")), st)
      | some received_state =>
        if received_state ≠ expected_csrf then
          (.error (.RedditApi (.AuthenticationFailed "CSRF token mismatch")), st)
        else
          match queryGet qs "code" with
          | none =>
            (.error (.RedditApi (.InvalidResponse "Missing authorization code")),
              st)
          | some auth_code =>
            -- `std::mem::replace(&mut self.auth_state, NotAuthenticated)`
            match st with
            | .PendingAuthorization _ pkce_verifier =>
              match exchange (trimAuthCode auth_code) pkce_verifier with
              | .error e =>
                (.error (.RedditApi (.AuthenticationFailed
                    ("Token exchange failed: " ++ e))),
                  .NotAuthenticated)
              | .ok token => (.ok token, .Authenticated token)
            | _ =>
              (.error (.RedditApi (.AuthenticationFailed
                  "Invalid authentication state")),
                .NotAuthenticated)

/-! ## Metrics, rate limiter and client construction (metrics.rs,
rate_limiter.rs, api.rs, lib.rs) -/

/-- `ApiMetrics` from `reddit-client/src/metrics.rs`;
`average_response_time` is in milliseconds, per-endpoint and hourly
aggregates are association lists. -/
structure ApiMetrics where
  total_requests : Nat
  successful_requests : Nat
  failed_requests : Nat
  rate_limited_requests : Nat
  average_response_time : Nat
  last_request_time : Option Nat
  requests_by_endpoint : List (String × Nat)
  hourly_request_counts : List (Nat × Nat)
  deriving DecidableEq, Repr

/-- `ApiMetrics::default()` (`metrics.rs` lines 46-59). -/
def ApiMetrics.fresh : ApiMetrics :=
  { total_requests := 0
    successful_requests := 0
    failed_requests := 0
    rate_limited_requests := 0
    average_response_time := 0
    last_request_time := none
    requests_by_endpoint := []
    hourly_request_counts := [] }

/-- `RateLimitConfig` from `reddit-client/src/rate_limiter.rs`;
`time_window` in seconds. -/
structure RateLimitConfig where
  max_requests : Nat
  time_window : Nat
  burst_allowance : Nat
  deriving DecidableEq, Repr

/-- `RateLimitConfig::reddit_oauth()`. -/
def RateLimitConfig.reddit_oauth : RateLimitConfig :=
  { max_requests := 100, time_window := 60, burst_allowance := 10 }

/-- The state of a `RateLimiter` (`rate_limiter.rs` lines 90-110): the
token bucket's level and parameters plus the semaphore's free permits. -/
structure RateLimiterState where
  tokens : ℚ
  capacity : ℚ
  refill_rate : ℚ
  available_permits : Nat
  config : RateLimitConfig
  deriving Repr

/-- `RateLimiter::new` (via `TokenBucket::new`, `rate_limiter.rs` lines
33-44 and 98-110): the bucket starts full at `capacity = burst_allowance`,
`refill_rate = max_requests / time_window`, and the semaphore has
`burst_allowance` permits. -/
def RateLimiter.new (config : RateLimitConfig) : RateLimiterState :=
  { tokens := (config.burst_allowance : ℚ)
    capacity := (config.burst_allowance : ℚ)
    refill_rate := (config.max_requests : ℚ) / (config.time_window : ℚ)
    available_permits := config.burst_allowance
    config := config }

/-- The fields of `RateLimitStatus` (`rate_limiter.rs` lines 145-172) that
the claims observe. -/
structure RateLimitStatus where
  available_tokens : Nat
  max_tokens : Nat
  available_permits : Nat
  requests_per_minute : Nat
  is_near_limit : Bool
  deriving DecidableEq, Repr

/-- `RateLimiter::get_rate_limit_status` observed with no elapsed time
since construction (lazy refill adds `elapsed * refill_rate = 0` tokens);
`available_tokens` is the `f64 as u32` cast of the bucket level. -/
def RateLimiterState.get_rate_limit_status (l : RateLimiterState) : RateLimitStatus :=
  { available_tokens := min (ratTrunc l.tokens).toNat (2 ^ 32 - 1)
    max_tokens := l.config.burst_allowance
    available_permits := l.available_permits
    requests_per_minute := l.config.max_requests
    is_near_limit := decide (l.tokens < (l.config.burst_allowance : ℚ) * (1/5)) }

/-- `RedditApiClient` (`api.rs` lines 90-102): the mutable state a client
owns.  `api_tracker` is `None` after `RedditApiClient::new`. -/
structure RedditApiClient where
  metrics : ApiMetrics
  rate_limiter : RateLimiterState
  circuit_breaker : CircuitBreaker
  tracker_attached : Bool
  user_agent : String
  deriving Repr

/-- `RedditApiClient::new` (`api.rs` lines 104-126): fresh metrics
collector, fresh rate limiter over `RateLimitConfig::reddit_oauth()`, and
a fresh retry executor over `RetryConfig::reddit()`; no tracker. -/
def RedditApiClient.new (user_agent : String) : RedditApiClient :=
  { metrics := ApiMetrics.fresh
    rate_limiter := RateLimiter.new RateLimitConfig.reddit_oauth
    circuit_breaker := CircuitBreaker.new RetryConfig.reddit
    tracker_attached := false
    user_agent := user_agent }

/-- `RedditOAuth2Config` from `reddit-client/src/lib.rs`. -/
structure RedditOAuth2Config where
  client_id : String
  client_secret : String
  redirect_uri : String
  user_agent : String
  deriving DecidableEq, Repr

/-- `RedditClient::get_api_metrics` (`lib.rs` lines 569-572): constructs a
brand-new `RedditApiClient` and reads its metrics. -/
def RedditClient.get_api_metrics (config : RedditOAuth2Config) : ApiMetrics :=
  (RedditApiClient.new config.user_agent).metrics

/-- `RedditClient::get_rate_limit_status` (`lib.rs` lines 574-577):
constructs a brand-new `RedditApiClient` and queries its rate limiter. -/
def RedditClient.get_rate_limit_status (config : RedditOAuth2Config) :
    RateLimitStatus :=
  (RedditApiClient.new config.user_agent).rate_limiter.get_rate_limit_status

/-- `RedditClient::fetch_posts_with_options` (`lib.rs` lines 412-448):
after `ensure_authenticated`, construct a brand-new `RedditApiClient`,
fetch the listing (its outcome is the parameter `listing`), and convert
each child to the domain model.  Returns the result and the api client the
call constructed (`none` when it never got that far). -/
def RedditClient.fetch_posts_with_options (config : RedditOAuth2Config)
    (st : AuthState) (listing : Except CoreError (List RedditPostData)) :
    Except CoreError (List RedditPost) × Option RedditApiClient :=
  match st with
  | .Authenticated _ =>
    (listing.map fun posts => posts.map RedditPostData.toRedditPost,
      some (RedditApiClient.new config.user_agent))
  | _ =>
    (.error (.RedditApi (.AuthenticationFailed "Not authenticated")), none)

/-! ## Example inputs shared by the theorems -/

/-- The high-priority request of spec scenario S5 (priority `+1`,
`scheduled_for = 0`). -/
def highReq : PriorityRequest := ⟨"high", 1, 0⟩

/-- The normal-priority request of spec scenario S5. -/
def normalReq : PriorityRequest := ⟨"normal", 0, 0⟩

/-- The low-priority request of spec scenario S5 (priority `-1`). -/
def lowReq : PriorityRequest := ⟨"low", -1, 0⟩

/-- An empty queue with the default capacity 1000. -/
def emptyQueueState : QueueState := ⟨[], [], [], [], [], 1000⟩

/-- The queued request produced by enqueueing `GET /api/v1/me` with
priority 0 at time 100 under request id `rid`. -/
def sampleQueuedReq : QueuedRequest :=
  ⟨"rid", "/api/v1/me", "GET", 0, none, "tok", none, 100, some 100, 0, 3, 30, none⟩

/-- The queue state right after that enqueue. -/
def oneReqQueueState : QueueState :=
  ⟨[⟨"rid", 0, 100⟩], [("rid", sampleQueuedReq)], ["rid"],
    [⟨"rid", "queued", 0, 100⟩], [], 1000⟩

/-! ## C1 -/

/-- C1: among queued requests with `scheduled_for ≤ now`, the next request
dequeued is claimed to have maximal priority (spec scenario S5: priorities
`-1, 0, +1` with identical `scheduled_for` dequeue as `+1, 0, -1`).  The
code violates this: `impl Ord for PriorityRequest` compares
`other.priority` against `self.priority` — backwards for Rust's max-heap
`BinaryHeap` — so `pop` returns the *lowest* priority.  At the spec's S5
input the dequeued request is the priority `-1` one, and it compares
strictly greater (under the implemented `Ord`) than both the `+1` and `0`
requests, so any `BinaryHeap::pop` tie-break must return it. -/
theorem process_next_dequeues_lowest_priority :
    processNextDequeues [highReq, normalReq, lowReq] 0 = some lowReq
    ∧ PriorityRequest.cmp highReq lowReq = .lt
    ∧ PriorityRequest.cmp normalReq lowReq = .lt
    ∧ lowReq.priority < highReq.priority := by
  decide

/-! ## C2 -/

/-- C2: every HTTP response is claimed to be recorded exactly once in
`api_call_tracking`.  The code violates this: `make_request_internal`
returns early on the 429/401/403/404/5xx branches *before* reaching
`tracker.record_api_call`, so those responses append no row.  A 429
response (even with a tracker attached) appends zero rows, while a 200
response appends exactly one row carrying the freshly generated
`request_id`. -/
theorem error_responses_never_reach_tracker :
    make_request_internal "/api/v1/me" "GET" true "id-1" (.response ⟨429, some 2⟩)
      = (.error (.RedditApi (.RateLimitExceeded 2)), [])
    ∧ make_request_internal "/api/v1/me" "GET" true "id-2" (.response ⟨500, none⟩)
      = (.error (.RedditApi (.ServerError 500)), [])
    ∧ make_request_internal "/api/v1/me" "GET" true "id-3" (.response ⟨200, none⟩)
      = (.ok ⟨200, none⟩,
          [{ endpoint := "/api/v1/me", method := "GET", status_code := some 200,
             rate_limited := false, request_id := "id-3" }]) := by
  decide

/-! ## C3 -/

/-- C3: `check_subreddit_access` is claimed to map 2xx to `Ok(true)` and
Forbidden/not-found to `Ok(false)`.  The code only satisfies the first
part: `RetryExecutor::execute` rewraps every failure as
`CoreError::Internal { message: last_error }`, so the
`Err(RedditApi(Forbidden))` and `Err(RedditApi(SubredditNotFound))` match
arms of `check_subreddit_access` are unreachable, and a 403 or 404 surfaces
as `Err(Internal(..))` instead of `Ok(false)` (a 404 is moreover retried,
since `make_request_internal` maps it to the retryable `InvalidResponse`,
never to `SubredditNotFound`). -/
theorem check_subreddit_access_at_status_codes :
    (check_subreddit_access RetryConfig.reddit (CircuitBreaker.new RetryConfig.reddit)
        0 "rust" (fun _ => "u") (fun _ => .response ⟨200, none⟩)).1 = .ok true
    ∧ (check_subreddit_access RetryConfig.reddit (CircuitBreaker.new RetryConfig.reddit)
        0 "private" (fun _ => "u") (fun _ => .response ⟨403, none⟩)).1
      = .error (.Internal "Reddit API error: Forbidden access to resource: /r/private/about")
    ∧ (check_subreddit_access RetryConfig.reddit (CircuitBreaker.new RetryConfig.reddit)
        0 "missing" (fun _ => "u") (fun _ => .response ⟨404, none⟩)).1
      = .error (.Internal "Reddit API error: Invalid API response: Resource not found") := by
  decide

/-! ## C4 -/

/-- C4: a successfully executed queued request is claimed to mark its row
`completed`, drop the in-memory entries, and deliver exactly one success
result on the caller's receiver.  The code does the first two but delivers
nothing: `complete_request` removes the result sender from the map before
`execute_request` reaches its send step, so the send's
`senders.get(&request_id)` finds nothing.  Evaluating an enqueue followed
by a successful execution: the row is `completed`, memory is empty, and
`delivered` — the list of results actually sent — is empty instead of a
one-element list. -/
theorem successful_request_delivers_no_result :
    enqueue_request emptyQueueState "rid" "/api/v1/me" "GET" "tok" 0 none none none
        none 100
      = .ok ("rid", oneReqQueueState)
    ∧ (execute_request oneReqQueueState sampleQueuedReq (.ok (200, "data")) 100).db
      = [⟨"rid", "completed", 0, 100⟩]
    ∧ (execute_request oneReqQueueState sampleQueuedReq (.ok (200, "data")) 100).requests
      = []
    ∧ (execute_request oneReqQueueState sampleQueuedReq (.ok (200, "data")) 100).senders
      = []
    ∧ (execute_request oneReqQueueState sampleQueuedReq (.ok (200, "data")) 100).delivered
      = [] := by
  decide

/-! ## C10 -/

/-- C10: `cancel_request` on an unknown id is claimed to return `Ok(false)`
with no database change, and on a present id to clear the in-memory state
and mark the row `cancelled`.  The first half holds, and the second half
holds except for the database: the call hands the status `"cancelled"` to
`update_request_status`, whose `match` only recognises
`executing`/`completed`/`failed` and silently does nothing for any other
status, so the row keeps its previous status (here `"queued"`). -/
theorem cancel_request_row_never_marked_cancelled :
    (∀ st : QueueState, ∀ id : String,
      (st.requests.find? fun p => p.1 = id) = none →
        (cancel_request st id).1 = false ∧ (cancel_request st id).2.db = st.db)
    ∧ cancel_request oneReqQueueState "rid"
      = (true, ⟨[], [], [], [⟨"rid", "queued", 0, 100⟩], [], 1000⟩) := by
  constructor
  · intro st id h
    simp [cancel_request, h]
  · decide

/-- Witness for the hypothesis of `cancel_request_row_never_marked_cancelled`:
the empty queue state does not contain the id `x`, and cancelling it
returns `false` and leaves the (empty) table unchanged. -/
theorem cancel_request_row_never_marked_cancelled_witness :
    ((emptyQueueState.requests.find? fun p => p.1 = "x") = none)
    ∧ (cancel_request emptyQueueState "x").1 = false
    ∧ (cancel_request emptyQueueState "x").2.db = emptyQueueState.db := by
  refine ⟨by decide, ?_⟩
  have h := cancel_request_row_never_marked_cancelled.1 emptyQueueState "x" (by decide)
  exact h

/-! ## Truncation lemmas -/

/-- On non-negative rationals, truncation toward zero agrees with the
floor. -/
theorem ratTrunc_eq_floor_of_nonneg (q : ℚ) (h : 0 ≤ q) : ratTrunc q = ⌊q⌋ := by
  rw [ratTrunc, Rat.floor_def]
  exact Int.tdiv_eq_ediv (Rat.num_nonneg.mpr h) (Int.ofNat_nonneg q.den)

/-- Truncation toward zero commutes with negation. -/
theorem ratTrunc_neg (q : ℚ) : ratTrunc (-q) = -(ratTrunc q) := by
  rw [ratTrunc, ratTrunc, Rat.neg_num, Rat.neg_den, Int.neg_tdiv]

/-- On non-negative rationals, the truncation is bounded by the value. -/
theorem ratTrunc_cast_le (q : ℚ) (h : 0 ≤ q) : ((ratTrunc q : Int) : ℚ) ≤ q := by
  rw [ratTrunc_eq_floor_of_nonneg q h]
  exact Int.floor_le q

/-! ## C8 -/

/-- The counterexample post: a link post whose wire `created_utc` is the
non-integer negative value `-1/2`. -/
def negUtcPost : RedditPostData :=
  { id := "cex"
    title := "t"
    selftext := ""
    author := "a"
    subreddit := "s"
    subreddit_name_prefixed := "r/s"
    url := "https://example.com"
    permalink := "/r/s/comments/cex"
    created_utc := Rat.mk' (-1) 2 (by decide) (by decide)
    score := 0
    num_comments := 0
    over_18 := false
    stickied := false
    locked := false
    ups := 0
    downs := 0
    upvote_ratio := none
    thumbnail := none
    is_self := false
    domain := "example.com" }

/-- C8 counterexample: the claim says `created_utc` becomes the *floor* of
the wire `f64`.  The conversion uses Rust's `as i64`, which truncates
toward zero: on the wire value `-1/2` (a representable `f64`) the code
produces `0` while the floor is `-1`. -/
theorem created_utc_is_trunc_not_floor :
    negUtcPost.created_utc = -1/2
    ∧ negUtcPost.toRedditPost.created_utc = 0
    ∧ ⌊negUtcPost.created_utc⌋ = -1
    ∧ negUtcPost.toRedditPost.created_utc ≠ ⌊negUtcPost.created_utc⌋ := by
  refine ⟨?_, by decide, ?_, ?_⟩
  · show Rat.mk' (-1) 2 (by decide) (by decide) = -1/2
    rw [Rat.mk'_eq_divInt, Rat.divInt_eq_div]
    norm_num
  · rw [Rat.floor_def]; decide
  · rw [Rat.floor_def]; decide

/-- C8 (amended): for every decoded post, `content` is `Some(selftext)`
exactly when `is_self` holds and `selftext` is non-empty (and `None`
otherwise), `permalink` is `"https://reddit.com"` prepended to the raw
permalink, and `created_utc` is the wire `f64` truncated toward zero —
which coincides with the floor exactly on non-negative values (and is
`-⌊-x⌋` on negative ones); the claim's "floor" holds only for
non-negative timestamps. -/
theorem reddit_post_conversion_spec (p : RedditPostData) :
    (p.is_self = true → p.selftext ≠ "" → p.toRedditPost.content = some p.selftext)
    ∧ (p.is_self = false ∨ p.selftext = "" → p.toRedditPost.content = none)
    ∧ p.toRedditPost.permalink = "https://reddit.com" ++ p.permalink
    ∧ p.toRedditPost.created_utc = ratAsI64 p.created_utc
    ∧ (0 ≤ p.created_utc → p.created_utc ≤ (i64Max : ℚ) →
        p.toRedditPost.created_utc = ⌊p.created_utc⌋)
    ∧ (p.created_utc < 0 → -(i64Max : ℚ) ≤ p.created_utc →
        p.toRedditPost.created_utc = -⌊-p.created_utc⌋) := by
  refine ⟨?_, ?_, rfl, rfl, ?_, ?_⟩
  · intro hs hne
    simp [RedditPostData.toRedditPost, hs, hne]
  · rintro (hs | he)
    · simp [RedditPostData.toRedditPost, hs]
    · simp [RedditPostData.toRedditPost, he]
  · intro h0 hle
    show ratAsI64 p.created_utc = ⌊p.created_utc⌋
    rw [ratAsI64, ratTrunc_eq_floor_of_nonneg _ h0]
    have hfl : ⌊p.created_utc⌋ ≤ i64Max := by
      calc ⌊p.created_utc⌋ ≤ ⌊(i64Max : ℚ)⌋ := Int.floor_le_floor hle
        _ = i64Max := Int.floor_intCast i64Max
    have hfl0 : (0 : Int) ≤ ⌊p.created_utc⌋ := Int.floor_nonneg.mpr h0
    have hmin : i64Min ≤ (0 : Int) := by decide
    rw [min_eq_right hfl, max_eq_right (le_trans hmin hfl0)]
  · intro hneg hge
    show ratAsI64 p.created_utc = -⌊-p.created_utc⌋
    have h0 : 0 ≤ -p.created_utc := by linarith
    have htr : ratTrunc p.created_utc = -⌊-p.created_utc⌋ := by
      rw [← ratTrunc_eq_floor_of_nonneg _ h0, ratTrunc_neg, neg_neg]
    rw [ratAsI64, htr]
    have hfl : ⌊-p.created_utc⌋ ≤ -i64Min := by
      have : -p.created_utc ≤ (-i64Min : ℚ) := by
        have : (i64Max : ℚ) ≤ (-i64Min : ℚ) := by
          push_cast [i64Max, i64Min]
          norm_num
        linarith
      calc ⌊-p.created_utc⌋ ≤ ⌊((-i64Min : Int) : ℚ)⌋ := by
            apply Int.floor_le_floor
            push_cast
            linarith
        _ = -i64Min := Int.floor_intCast _
    have hfl0 : (0 : Int) ≤ ⌊-p.created_utc⌋ := Int.floor_nonneg.mpr h0
    have h1 : -⌊-p.created_utc⌋ ≤ i64Max := by
      have : (0 : Int) ≤ i64Max := by decide
      omega
    have h2 : i64Min ≤ -⌊-p.created_utc⌋ := by omega
    rw [min_eq_right h1, max_eq_right h2]

/-- Witness for `reddit_post_conversion_spec` at a concrete self post with
`selftext = "hi"` and `created_utc = 1640995200` (spec scenario S6). -/
theorem reddit_post_conversion_spec_witness :
    let p : RedditPostData :=
      { id := "test123", title := "Test Post", selftext := "hi", author := "u",
        subreddit := "test", subreddit_name_prefixed := "r/test",
        url := "https://example.com", permalink := "/r/test/comments/test123",
        created_utc := (1640995200 : ℚ), score := 42, num_comments := 5,
        over_18 := false, stickied := false, locked := false, ups := 45,
        downs := 3, upvote_ratio := none, thumbnail := none, is_self := true,
        domain := "self.test" }
    p.is_self = true ∧ p.selftext ≠ "" ∧ 0 ≤ p.created_utc
    ∧ p.created_utc ≤ (i64Max : ℚ)
    ∧ p.toRedditPost.content = some p.selftext
    ∧ p.toRedditPost.created_utc = ⌊p.created_utc⌋ := by
  intro p
  have h := reddit_post_conversion_spec p
  refine ⟨rfl, by decide, by norm_num, ?_, ?_, ?_⟩
  · show (1640995200 : ℚ) ≤ (i64Max : ℚ)
    push_cast [i64Max]
    norm_num
  · exact h.1 rfl (by decide)
  · exact h.2.2.2.2.1 (by norm_num) (by push_cast [i64Max]; norm_num)

/-! ## C6 -/

/-- Discriminates callback results that fail with `AuthenticationFailed`. -/
def failsWithAuthenticationFailed : Except CoreError RedditToken → Bool
  | .error (.RedditApi (.AuthenticationFailed _)) => true
  | _ => false

/-- A token-exchange stub that always fails (never reached in the cases at
issue). -/
def failingExchange : String → String → Except String RedditToken :=
  fun _ _ => .error "network unreachable"

/-- C6 counterexample: the claim says an unparseable callback URL makes
`handle_callback` fail with `AuthenticationFailed`; the code instead
returns `InvalidResponse { details: "Invalid callback URL: ..." }`
(`lib.rs` lines 142-147), even in the `PendingAuthorization` state with a
matching CSRF token. -/
theorem handle_callback_unparseable_url_not_auth_failed :
    (handle_callback (.PendingAuthorization "csrf" "ver") none "csrf"
        failingExchange).1
      = .error (.RedditApi (.InvalidResponse "Invalid callback URL"))
    ∧ failsWithAuthenticationFailed
        (handle_callback (.PendingAuthorization "csrf" "ver") none "csrf"
          failingExchange).1
      = false := by
  decide

/-- C6 (amended): `handle_callback` fails in each of the five claimed
situations, but with two different error variants: the `error` query
parameter (reason = its value), a present-but-mismatching `state`, and a
non-`PendingAuthorization` auth state yield `AuthenticationFailed`, while
an unparseable URL, a missing `state` parameter, and a missing `code`
parameter yield `InvalidResponse`. -/
theorem handle_callback_failure_cases (st : AuthState)
    (qs : List (String × String)) (expected : String)
    (exchange : String → String → Except String RedditToken) :
    (handle_callback st none expected exchange).1
      = .error (.RedditApi (.InvalidResponse "Invalid callback URL"))
    ∧ (∀ err, queryGet qs "error" = some err →
        (handle_callback st (some qs) expected exchange).1
          = .error (.RedditApi (.AuthenticationFailed err)))
    ∧ (queryGet qs "error" = none → queryGet qs "state" = none →
        (handle_callback st (some qs) expected exchange).1
          = .error (.RedditApi (.InvalidResponse "Missing state parameter")))
    ∧ (∀ received, queryGet qs "error" = none →
        queryGet qs "state" = some received → received ≠ expected →
        (handle_callback st (some qs) expected exchange).1
          = .error (.RedditApi (.AuthenticationFailed "CSRF token mismatch")))
    ∧ (queryGet qs "error" = none → queryGet qs "state" = some expected →
        queryGet qs "code" = none →
        (handle_callback st (some qs) expected exchange).1
          = .error (.RedditApi (.InvalidResponse "Missing authorization code")))
    ∧ (∀ code, queryGet qs "error" = none →
        queryGet qs "state" = some expected → queryGet qs "code" = some code →
        (∀ c v, st ≠ .PendingAuthorization c v) →
        (handle_callback st (some qs) expected exchange).1
          = .error (.RedditApi (.AuthenticationFailed
              "Invalid authentication state"))) := by
  refine ⟨rfl, ?_, ?_, ?_, ?_, ?_⟩
  · intro err herr
    simp [handle_callback, herr]
  · intro herr hst
    simp [handle_callback, herr, hst]
  · intro received herr hst hne
    simp [handle_callback, herr, hst, hne]
  · intro herr hst hcode
    simp [handle_callback, herr, hst, hcode]
  · intro code herr hst hcode hnp
    cases st with
    | PendingAuthorization c v => exact absurd rfl (hnp c v)
    | NotAuthenticated => simp [handle_callback, herr, hst, hcode]
    | Authenticated tok => simp [handle_callback, herr, hst, hcode]
    | TokenExpired tok => simp [handle_callback, herr, hst, hcode]

/-- Witness for `handle_callback_failure_cases`: the CSRF-mismatch case at
a concrete callback query (spec scenario S2). -/
theorem handle_callback_failure_cases_witness :
    queryGet [("code", "abc"), ("state", "Y")] "error" = none
    ∧ queryGet [("code", "abc"), ("state", "Y")] "state" = some "Y"
    ∧ "Y" ≠ "X"
    ∧ (handle_callback .NotAuthenticated
          (some [("code", "abc"), ("state", "Y")]) "X" failingExchange).1
      = .error (.RedditApi (.AuthenticationFailed "CSRF token mismatch")) := by
  refine ⟨by decide, by decide, by decide, ?_⟩
  exact (handle_callback_failure_cases .NotAuthenticated
    [("code", "abc"), ("state", "Y")] "X" failingExchange).2.2.2.1 "Y"
    (by decide) (by decide) (by decide)

/-! ## C5 -/

/-- An operation that always fails with a retryable 500 server error. -/
def opFail : Nat → Except CoreError Unit := fun _ => .error (.RedditApi (.ServerError 500))

/-- An operation that always succeeds. -/
def opOk : Nat → Except CoreError Unit := fun _ => .ok ()

/-- Against `opFail` the attempt loop always reports failure. -/
theorem runAttemptsAux_opFail_inl (cfg : RetryConfig) :
    ∀ (rem att : Nat) (last : Option String),
      ∃ m, (runAttemptsAux cfg opFail rem att last).1 = .inl m := by
  intro rem
  induction rem with
  | zero => intro att last; exact ⟨last, rfl⟩
  | succ r ih =>
    intro att last
    by_cases h0 : 0 < r
    · obtain ⟨m, hm⟩ := ih (att + 1) (some (CoreError.display
        (.RedditApi (.ServerError 500))))
      exact ⟨m, by simp [runAttemptsAux, opFail, get_retry_strategy, h0, hm]⟩
    · exact ⟨some (CoreError.display (.RedditApi (.ServerError 500))),
        by simp [runAttemptsAux, opFail, get_retry_strategy, h0]⟩

/-- When at least one loop iteration remains, the operation is invoked at
least once. -/
theorem runAttemptsAux_succ_invokes {T : Type} (cfg : RetryConfig)
    (op : Nat → Except CoreError T) (rem att : Nat) (last : Option String) :
    1 ≤ (runAttemptsAux cfg op (rem + 1) att last).2 := by
  simp only [runAttemptsAux]
  cases h : op att with
  | ok t => simp
  | error e =>
    cases hs : get_retry_strategy e with
    | NoRetry => simp [hs]
    | Retry => by_cases h0 : 0 < rem <;> simp [hs, h0]
    | RetryWithDelay d => by_cases h0 : 0 < rem <;> simp [hs, h0]

/-- C5: the retry executor's circuit breaker behaves as claimed.  The
representation of the claim's "CircuitOpen error" in the code is
`CoreError::Internal { message: "Circuit breaker is open" }` (the error
the executor returns when the breaker blocks).  The conjuncts state: a
failing execution in `Closed` below the threshold stays `Closed` and
increments the counter; the execution that reaches `failure_threshold`
consecutive failures opens the breaker stamping the failure time; while
`Open` and within `recovery_timeout`, any call returns the circuit-open
error with the operation invoked zero times and the breaker unchanged;
once `recovery_timeout` has elapsed, one attempt is admitted in `HalfOpen`
— success returns the breaker to `Closed` with the counter reset, failure
returns it to `Open`; and a success while `Closed` resets the counter. -/
theorem circuit_breaker_spec (cfg : RetryConfig) :
    (∀ (b : CircuitBreaker) (now : Nat), b.state = .Closed →
      b.failure_count + 1 < b.config.failure_threshold →
        (RetryExecutor.execute cfg b now opFail).2.1.state = .Closed
        ∧ (RetryExecutor.execute cfg b now opFail).2.1.failure_count
            = b.failure_count + 1)
    ∧ (∀ (b : CircuitBreaker) (now : Nat), b.state = .Closed →
        b.config.failure_threshold ≤ b.failure_count + 1 →
          (RetryExecutor.execute cfg b now opFail).2.1.state = .Open
          ∧ (RetryExecutor.execute cfg b now opFail).2.1.last_failure_time
              = some now)
    ∧ (∀ (b : CircuitBreaker) (now t : Nat) (op : Nat → Except CoreError Unit),
        b.state = .Open → b.last_failure_time = some t →
        now - t < b.config.recovery_timeout_s →
          RetryExecutor.execute cfg b now op
            = (.error (.Internal "Circuit breaker is open"), b, 0))
    ∧ (∀ (b : CircuitBreaker) (now t : Nat), b.state = .Open →
        b.last_failure_time = some t → b.config.recovery_timeout_s ≤ now - t →
        1 ≤ cfg.max_attempts →
          (RetryExecutor.execute cfg b now opOk).1 = .ok ()
          ∧ (RetryExecutor.execute cfg b now opOk).2.1.state = .Closed
          ∧ (RetryExecutor.execute cfg b now opOk).2.1.failure_count = 0
          ∧ (RetryExecutor.execute cfg b now opOk).2.2 = 1)
    ∧ (∀ (b : CircuitBreaker) (now t : Nat), b.state = .Open →
        b.last_failure_time = some t → b.config.recovery_timeout_s ≤ now - t →
        1 ≤ cfg.max_attempts →
          (RetryExecutor.execute cfg b now opFail).2.1.state = .Open
          ∧ 1 ≤ (RetryExecutor.execute cfg b now opFail).2.2)
    ∧ (∀ (b : CircuitBreaker) (now : Nat), b.state = .Closed →
        1 ≤ cfg.max_attempts →
          (RetryExecutor.execute cfg b now opOk).1 = .ok ()
          ∧ (RetryExecutor.execute cfg b now opOk).2.1.failure_count = 0
          ∧ (RetryExecutor.execute cfg b now opOk).2.1.state = .Closed) := by
  refine ⟨?_, ?_, ?_, ?_, ?_, ?_⟩
  · intro b now hst hlt
    obtain ⟨m, hm⟩ := runAttemptsAux_opFail_inl cfg cfg.max_attempts 0 none
    rcases hrun : runAttemptsAux cfg opFail cfg.max_attempts 0 none with ⟨s, n⟩
    rw [hrun] at hm; simp only at hm; subst hm
    simp [RetryExecutor.execute, runAttempts, hrun,
      CircuitBreaker.allow_request, hst, CircuitBreaker.record_success,
      CircuitBreaker.record_failure, Nat.not_le.mpr hlt]
  · intro b now hst hle
    obtain ⟨m, hm⟩ := runAttemptsAux_opFail_inl cfg cfg.max_attempts 0 none
    rcases hrun : runAttemptsAux cfg opFail cfg.max_attempts 0 none with ⟨s, n⟩
    rw [hrun] at hm; simp only at hm; subst hm
    simp [RetryExecutor.execute, runAttempts, hrun,
      CircuitBreaker.allow_request, hst, CircuitBreaker.record_failure, hle]
  · intro b now t op hst hlf hlt
    simp [RetryExecutor.execute, CircuitBreaker.allow_request, hst, hlf,
      Nat.not_le.mpr hlt]
  · intro b now t hst hlf hle hatt
    obtain ⟨r, hr⟩ := Nat.exists_eq_add_of_le hatt
    simp [RetryExecutor.execute, CircuitBreaker.allow_request, hst, hlf, hle,
      runAttempts, hr, Nat.add_comm 1 r, runAttemptsAux, opOk,
      CircuitBreaker.record_success]
  · intro b now t hst hlf hle hatt
    obtain ⟨r, hr⟩ := Nat.exists_eq_add_of_le hatt
    obtain ⟨m, hm⟩ := runAttemptsAux_opFail_inl cfg (r + 1) 0 none
    rcases hrun : runAttemptsAux cfg opFail (r + 1) 0 none with ⟨s, n⟩
    rw [hrun] at hm; simp only at hm; subst hm
    have hinv := runAttemptsAux_succ_invokes cfg opFail r 0 (none : Option String)
    rw [hrun] at hinv
    constructor
    · simp [RetryExecutor.execute, CircuitBreaker.allow_request, hst, hlf, hle,
        runAttempts, hr, Nat.add_comm 1 r, hrun, CircuitBreaker.record_failure]
    · simpa [RetryExecutor.execute, CircuitBreaker.allow_request, hst, hlf, hle,
        runAttempts, hr, Nat.add_comm 1 r, hrun] using hinv
  · intro b now hst hatt
    obtain ⟨r, hr⟩ := Nat.exists_eq_add_of_le hatt
    refine ⟨?_, ?_, ?_⟩ <;>
      simp [RetryExecutor.execute, CircuitBreaker.allow_request, hst,
        runAttempts, hr, Nat.add_comm 1 r, runAttemptsAux, opOk,
        CircuitBreaker.record_success]

/-- A breaker that tripped at time 2 after 3 consecutive failures under
the Reddit configuration (`failure_threshold = 3`,
`recovery_timeout_s = 120`). -/
def openBreaker : CircuitBreaker := ⟨.Open, 3, some 2, RetryConfig.reddit⟩

/-- Witness for `circuit_breaker_spec`: under the Reddit configuration, a
call at time 50 (within the 120 s recovery window of a breaker opened at
time 2) returns the circuit-open error without invoking the operation,
and a call at time 122 (window elapsed) admits one attempt whose success
closes the breaker and resets the counter. -/
theorem circuit_breaker_spec_witness :
    openBreaker.state = .Open
    ∧ openBreaker.last_failure_time = some 2
    ∧ 50 - 2 < openBreaker.config.recovery_timeout_s
    ∧ RetryExecutor.execute RetryConfig.reddit openBreaker 50 opOk
      = (.error (.Internal "Circuit breaker is open"), openBreaker, 0)
    ∧ openBreaker.config.recovery_timeout_s ≤ 122 - 2
    ∧ 1 ≤ RetryConfig.reddit.max_attempts
    ∧ (RetryExecutor.execute RetryConfig.reddit openBreaker 122 opOk).1 = .ok ()
    ∧ (RetryExecutor.execute RetryConfig.reddit openBreaker 122 opOk).2.1.state
      = .Closed
    ∧ (RetryExecutor.execute RetryConfig.reddit openBreaker 122
        opOk).2.1.failure_count = 0 := by
  have h3 := (circuit_breaker_spec RetryConfig.reddit).2.2.1 openBreaker 50 2 opOk
    rfl rfl (by decide)
  have h4 := (circuit_breaker_spec RetryConfig.reddit).2.2.2.1 openBreaker 122 2
    rfl rfl (by decide) (by decide)
  exact ⟨rfl, rfl, by decide, h3, by decide, by decide, h4.1, h4.2.1, h4.2.2.1⟩

/-! ## C7 -/

/-- Truncation of a natural-number cast is the number itself. -/
theorem ratTrunc_natCast (n : Nat) : ratTrunc (n : ℚ) = (n : Int) := by
  rw [ratTrunc, Rat.num_natCast, Rat.den_natCast]
  exact Int.tdiv_one n

/-- The `as u64` cast of a natural-number cast saturates at `u64::MAX`. -/
theorem ratAsU64_natCast (n : Nat) : ratAsU64 (n : ℚ) = min n u64Max := by
  rw [ratAsU64, ratTrunc_natCast, Int.toNat_natCast]

/-- The `as u64` cast of a non-negative rational is bounded by the value. -/
theorem ratAsU64_cast_le (q : ℚ) (h : 0 ≤ q) : ((ratAsU64 q : Nat) : ℚ) ≤ q := by
  have hpos : (0 : Int) ≤ ratTrunc q := by
    rw [ratTrunc_eq_floor_of_nonneg q h]
    exact Int.floor_nonneg.mpr h
  calc ((ratAsU64 q : Nat) : ℚ) ≤ (((ratTrunc q).toNat : Nat) : ℚ) := by
        exact_mod_cast min_le_left _ _
    _ = ((ratTrunc q : Int) : ℚ) := by
        exact_mod_cast Int.toNat_of_nonneg hpos
    _ ≤ q := ratTrunc_cast_le q h

/-- C7: for every attempt number and configuration (with a non-negative
jitter factor and a `max_delay_ms` that fits in a `u64`, as every Rust
configuration has), the computed backoff delay equals
`min(max_delay, base_delay * multiplier ^ attempt) + jitter` for some
jitter in `[0, delay * jitter_factor]` — where the exponential term is the
value at millisecond granularity that the code computes (`as u64`
truncation) — and every computed delay under `RetryConfig::reddit()` is
bounded by `max_delay_ms = 60000`. -/
theorem calculate_delay_spec (cfg : RetryConfig) (attempt j : Nat)
    (hjf : 0 ≤ cfg.jitter_factor)
    (hmax : cfg.max_delay_ms ≤ u64Max)
    (hj : j ≤ jitterRangeMs cfg attempt) :
    (∃ jit : Nat,
      calculate_delay cfg attempt j
        = min cfg.max_delay_ms
            (ratAsU64 ((cfg.base_delay_ms : ℚ) * cfg.backoff_multiplier ^ attempt))
          + jit
      ∧ (jit : ℚ)
          ≤ ((min cfg.max_delay_ms
              (ratAsU64 ((cfg.base_delay_ms : ℚ)
                * cfg.backoff_multiplier ^ attempt)) : Nat) : ℚ)
            * cfg.jitter_factor)
    ∧ (∀ a k : Nat, calculate_delay RetryConfig.reddit a k ≤ 60000) := by
  constructor
  · have hjr : (j : ℚ) ≤ (exponentialDelayMs cfg attempt : ℚ) * cfg.jitter_factor := by
      have h1 : ((jitterRangeMs cfg attempt : Nat) : ℚ)
          ≤ (exponentialDelayMs cfg attempt : ℚ) * cfg.jitter_factor := by
        rw [jitterRangeMs]
        exact ratAsU64_cast_le _ (mul_nonneg (Nat.cast_nonneg _) hjf)
      exact le_trans (by exact_mod_cast hj) h1
    by_cases h0 : attempt = 0
    · subst h0
      have hS : ratAsU64 ((cfg.base_delay_ms : ℚ) * cfg.backoff_multiplier ^ 0)
          = min cfg.base_delay_ms u64Max := by
        rw [pow_zero, mul_one, ratAsU64_natCast]
      have hE0 : exponentialDelayMs cfg 0 = cfg.base_delay_ms := by
        rw [exponentialDelayMs]; simp
      by_cases hbm : cfg.base_delay_ms ≤ cfg.max_delay_ms
      · have hterm : min cfg.max_delay_ms
            (ratAsU64 ((cfg.base_delay_ms : ℚ) * cfg.backoff_multiplier ^ 0))
            = cfg.base_delay_ms := by
          rw [hS, min_eq_left (le_trans hbm hmax)]
          exact min_eq_right hbm
        by_cases hEj : cfg.base_delay_ms + j ≤ cfg.max_delay_ms
        · refine ⟨j, ?_, ?_⟩
          · rw [calculate_delay, hE0, hterm]
            exact min_eq_left hEj
          · rw [hterm, ← hE0]
            exact hjr
        · refine ⟨cfg.max_delay_ms - cfg.base_delay_ms, ?_, ?_⟩
          · rw [calculate_delay, hE0, hterm]
            omega
          · rw [hterm]
            calc ((cfg.max_delay_ms - cfg.base_delay_ms : Nat) : ℚ)
                ≤ (j : ℚ) := by exact_mod_cast (by omega : cfg.max_delay_ms - cfg.base_delay_ms ≤ j)
              _ ≤ (cfg.base_delay_ms : ℚ) * cfg.jitter_factor := by rw [← hE0]; exact hjr
      · have hterm : min cfg.max_delay_ms
            (ratAsU64 ((cfg.base_delay_ms : ℚ) * cfg.backoff_multiplier ^ 0))
            = cfg.max_delay_ms := by
          rw [hS]
          exact min_eq_left (le_min (by omega) hmax)
        refine ⟨0, ?_, ?_⟩
        · rw [calculate_delay, hE0, hterm, Nat.add_zero]
          exact min_eq_right (by omega)
        · rw [hterm, Nat.cast_zero]
          exact mul_nonneg (Nat.cast_nonneg _) hjf
    · have hE1 : exponentialDelayMs cfg attempt
          = min (ratAsU64 ((cfg.base_delay_ms : ℚ)
              * cfg.backoff_multiplier ^ attempt)) cfg.max_delay_ms := by
        rw [exponentialDelayMs]; simp [h0]
      have hterm : min cfg.max_delay_ms
          (ratAsU64 ((cfg.base_delay_ms : ℚ) * cfg.backoff_multiplier ^ attempt))
          = exponentialDelayMs cfg attempt := by
        rw [hE1, min_comm]
      have hEM : exponentialDelayMs cfg attempt ≤ cfg.max_delay_ms := by
        rw [hE1]; exact min_le_right _ _
      by_cases hEj : exponentialDelayMs cfg attempt + j ≤ cfg.max_delay_ms
      · refine ⟨j, ?_, ?_⟩
        · rw [calculate_delay, hterm]
          exact min_eq_left hEj
        · rw [hterm]
          exact hjr
      · refine ⟨cfg.max_delay_ms - exponentialDelayMs cfg attempt, ?_, ?_⟩
        · rw [calculate_delay, hterm]
          omega
        · rw [hterm]
          calc ((cfg.max_delay_ms - exponentialDelayMs cfg attempt : Nat) : ℚ)
              ≤ (j : ℚ) := by
                exact_mod_cast (by omega :
                  cfg.max_delay_ms - exponentialDelayMs cfg attempt ≤ j)
            _ ≤ (exponentialDelayMs cfg attempt : ℚ) * cfg.jitter_factor := hjr
  · intro a k
    exact Nat.min_le_right _ _

/-- Witness for `calculate_delay_spec` at the Reddit configuration,
attempt 1, jitter draw 0. -/
theorem calculate_delay_spec_witness :
    (0 : ℚ) ≤ RetryConfig.reddit.jitter_factor
    ∧ RetryConfig.reddit.max_delay_ms ≤ u64Max
    ∧ 0 ≤ jitterRangeMs RetryConfig.reddit 1
    ∧ ((∃ jit : Nat,
        calculate_delay RetryConfig.reddit 1 0
          = min RetryConfig.reddit.max_delay_ms
              (ratAsU64 ((RetryConfig.reddit.base_delay_ms : ℚ)
                * RetryConfig.reddit.backoff_multiplier ^ 1)) + jit
        ∧ (jit : ℚ)
            ≤ ((min RetryConfig.reddit.max_delay_ms
                (ratAsU64 ((RetryConfig.reddit.base_delay_ms : ℚ)
                  * RetryConfig.reddit.backoff_multiplier ^ 1)) : Nat) : ℚ)
              * RetryConfig.reddit.jitter_factor)
      ∧ (∀ a k : Nat, calculate_delay RetryConfig.reddit a k ≤ 60000)) := by
  refine ⟨?_, ?_, Nat.zero_le _, ?_⟩
  · show (0 : ℚ) ≤ 1/5
    norm_num
  · show (60000 : Nat) ≤ u64Max
    rw [u64Max]; norm_num
  · exact calculate_delay_spec RetryConfig.reddit 1 0 (by norm_num [RetryConfig.reddit])
      (by show (60000 : Nat) ≤ u64Max; rw [u64Max]; norm_num) (Nat.zero_le _)

/-! ## C9 -/

/-- C9: every `RedditClient` fetch and telemetry operation constructs a
brand-new `RedditApiClient`.  Consequently `get_api_metrics` always
returns the initial metrics (`total_requests = 0`),
`get_rate_limit_status` always reports a full fresh bucket
(10 of 10 tokens, 10 free permits), and the api client a
`fetch_posts_with_options` call uses is exactly
`RedditApiClient::new(user_agent)` — fresh metrics, a `Closed` circuit
breaker with a zero failure counter, and a token bucket at capacity — so
no rate-limit or breaker state carries over between successive calls. -/
theorem client_operations_use_fresh_state (config : RedditOAuth2Config)
    (st : AuthState) (listing : Except CoreError (List RedditPostData)) :
    RedditClient.get_api_metrics config = ApiMetrics.fresh
    ∧ (RedditClient.get_api_metrics config).total_requests = 0
    ∧ (RedditClient.get_rate_limit_status config).available_tokens = 10
    ∧ (RedditClient.get_rate_limit_status config).available_permits = 10
    ∧ (∀ c : RedditApiClient,
        (RedditClient.fetch_posts_with_options config st listing).2 = some c →
          c = RedditApiClient.new config.user_agent
          ∧ c.metrics.total_requests = 0
          ∧ c.circuit_breaker.state = .Closed
          ∧ c.circuit_breaker.failure_count = 0
          ∧ c.rate_limiter.tokens = c.rate_limiter.capacity) := by
  refine ⟨rfl, rfl, ?_, rfl, ?_⟩
  · show min (ratTrunc ((10 : Nat) : ℚ)).toNat (2 ^ 32 - 1) = 10
    rw [ratTrunc_natCast, Int.toNat_natCast]
    decide
  · intro c hc
    have hc' : c = RedditApiClient.new config.user_agent := by
      cases st with
      | Authenticated tok =>
        simpa [RedditClient.fetch_posts_with_options] using hc.symm
      | NotAuthenticated => simp [RedditClient.fetch_posts_with_options] at hc
      | PendingAuthorization a b =>
        simp [RedditClient.fetch_posts_with_options] at hc
      | TokenExpired tok => simp [RedditClient.fetch_posts_with_options] at hc
    subst hc'
    exact ⟨rfl, rfl, rfl, rfl, rfl⟩

/-- Witness for `client_operations_use_fresh_state` at a concrete
configuration and an authenticated state: the fetch's api client is the
freshly constructed one with zeroed counters. -/
theorem client_operations_use_fresh_state_witness :
    let cfg : RedditOAuth2Config := ⟨"cid", "sec", "http://localhost:8080/callback", "ua/1.0"⟩
    let tok : RedditToken := ⟨"at", none, 1000, []⟩
    (RedditClient.fetch_posts_with_options cfg (.Authenticated tok) (.ok [])).2
      = some (RedditApiClient.new "ua/1.0")
    ∧ RedditClient.get_api_metrics cfg = ApiMetrics.fresh
    ∧ (RedditClient.get_api_metrics cfg).total_requests = 0
    ∧ (RedditApiClient.new "ua/1.0").metrics.total_requests = 0
    ∧ (RedditApiClient.new "ua/1.0").circuit_breaker.state = .Closed := by
  intro cfg tok
  have h := client_operations_use_fresh_state cfg (.Authenticated tok) (.ok [])
  have h5 := h.2.2.2.2 (RedditApiClient.new "ua/1.0") rfl
  exact ⟨rfl, h.1, h.2.1, h5.2.1, h5.2.2.1⟩

end Likeminded
